import Mathlib

/-!
Verification development for the Focus Flow habit/routine tracking client.

The development shallowly embeds the two core components:
* the coach interaction controller of `src/pages/AICoachPage.tsx`
  (states idle/thinking/talking, guarded message/routine requests,
  settlement of the two AI invocations, playback completion), and
* the client-side data store (cache of routines, habits, habit logs)
  with its fetch single-flight, optimistic toggle with rollback and
  per-habit serialization, and cascade routine deletion.

Asynchronous handlers are split into a start step (the synchronous code
up to the awaited network call) and a settle step (the continuation run
when the call resolves or rejects); notifications and cache refresh
requests are returned as explicit data.
-/

namespace FocusFlow

/-- Time-of-day tag of a routine (`time_of_day ∈ {morning, evening}`). -/
inductive TimeOfDay
  | morning
  | evening
  deriving DecidableEq, Repr, BEq

/-- A routine record: `{ id, name, time_of_day }`. -/
structure Routine where
  id : Nat
  name : String
  time_of_day : TimeOfDay
  deriving DecidableEq, Repr

/-- A habit record: `{ id, name, routine_id }`. -/
structure Habit where
  id : Nat
  name : String
  routine_id : Nat
  deriving DecidableEq, Repr

/-- A per-day completion record: `{ habit_id, date, completed }`.
Dates are abstracted to `Nat` day indices. -/
structure HabitLog where
  habit_id : Nat
  date : Nat
  completed : Bool
  deriving DecidableEq, Repr

/-- The three entity collections held by the data store cache. -/
structure Cache where
  routines : List Routine
  habits : List Habit
  habitLogs : List HabitLog
  deriving DecidableEq, Repr

/-! ## Coach state machine (from `src/pages/AICoachPage.tsx`) -/

/-- The `coachState` react state: `'idle' | 'thinking' | 'talking'`. -/
inductive CoachState
  | idle
  | thinking
  | talking
  deriving DecidableEq, Repr

/-- The component-local state of `AICoachPage`:
`coachState`, `currentMessage`, `inputValue`. -/
structure CoachModel where
  coachState : CoachState
  currentMessage : String
  inputValue : String
  deriving DecidableEq, Repr

/-- A toast emitted through the notification collaborator (`sonner`). -/
inductive Toast
  | success (label : String)
  | error (label : String)
  deriving DecidableEq, Repr

/-- Outcome of `supabase.functions.invoke`, as observed by the handlers:
`failure` models a non-null `error`; `success none` models a resolved call
whose `data` object is null/undefined (reading a field of it throws);
`success (some s)` models `data` carrying the string field the handler
reads (`data.response` for ai-coach, `data.message` for generate-routine),
with `""` for an empty field (falsy in the source's truthiness test). -/
inductive InvokeOutcome
  | failure
  | success (data : Option String)
  deriving DecidableEq, Repr

/-- Initial value of `currentMessage`. -/
def greetingMessage : String :=
  "Hello! I am the Clarity Sage. How can I help you find focus today?"

/-- Placeholder set by `handleSendMessage` on entering `thinking`. -/
def ponderMessage : String := "Let me ponder on that for a moment..."

/-- Apology adopted by `handleSendMessage` in its catch block. -/
def sendApologyMessage : String :=
  "My apologies, my thoughts are unclear. Please ask again."

/-- Label of the failure toast in `handleSendMessage`. -/
def cloudyToastLabel : String := "The sage\x27s crystal ball seems cloudy."

/-- Placeholder set by `handleRoutineAction` on entering `thinking`. -/
def craftingMessage (timeOfDay : String) : String :=
  "Crafting a " ++ timeOfDay ++ " routine for you..."

/-- Apology adopted by `handleRoutineAction` in its catch block. -/
def quillMessage : String :=
  "I seem to have misplaced my quill. Could you ask again?"

/-- Label of the success toast in `handleRoutineAction`. -/
def routineSuccessToastLabel : String := "Routine updated!"

/-- Fallback label of the failure toast in `handleRoutineAction`
(the source prefers `error.message` when present). -/
def routineFailToastLabel (timeOfDay : String) : String :=
  "Failed to generate " ++ timeOfDay ++ " routine."

/-- Result of the synchronous start of a handler: the updated component
state, and whether an AI invocation was issued. -/
structure StartResult where
  model : CoachModel
  invoked : Bool
  deriving DecidableEq, Repr

/-- Result of a handler settling: the updated component state, the toasts
emitted, and whether `triggerRoutinesRefresh()` was called. -/
structure SettleResult where
  model : CoachModel
  toasts : List Toast
  refreshTriggered : Bool
  deriving DecidableEq, Repr

/-- The truthiness test `!prompt.trim()` of the source: trimming leaves
the empty string exactly when every character of the prompt is
whitespace (in particular when the prompt is empty). -/
def isBlankPrompt (prompt : String) : Bool :=
  prompt.data.all Char.isWhitespace

/-- The synchronous part of `handleSendMessage(prompt)`, up to its
awaited invocation:
`if (!prompt.trim() || coachState !== 'idle') return;` then set
`thinking`, the pondering message, clear the input, and invoke
`ai-coach`. -/
def handleSendMessageStart (m : CoachModel) (prompt : String) : StartResult :=
  if isBlankPrompt prompt = true ∨ m.coachState ≠ CoachState.idle then
    ⟨m, false⟩
  else
    ⟨{ coachState := CoachState.thinking
       currentMessage := ponderMessage
       inputValue := "" }, true⟩

/-- Continuation of `handleSendMessage` once the `ai-coach` invocation
settles: a non-null `error`, a null `data`, or a falsy `data.response`
all reach the catch block (failure toast, apology, `talking`); otherwise
the response is adopted and the state becomes `talking`. -/
def handleSendMessageSettle (m : CoachModel) (out : InvokeOutcome) :
    SettleResult :=
  match out with
  | InvokeOutcome.success (some r) =>
      if r = "" then
        ⟨{ m with coachState := CoachState.talking
                  currentMessage := sendApologyMessage },
         [Toast.error cloudyToastLabel], false⟩
      else
        ⟨{ m with coachState := CoachState.talking
                  currentMessage := r }, [], false⟩
  | _ =>
      ⟨{ m with coachState := CoachState.talking
                currentMessage := sendApologyMessage },
       [Toast.error cloudyToastLabel], false⟩

/-- The synchronous part of `handleRoutineAction(timeOfDay)`, up to its
awaited invocation:
`if (coachState !== 'idle') return;` then set `thinking` and the
crafting message and invoke `generate-routine` (the input value is not
touched). -/
def handleRoutineActionStart (m : CoachModel) (timeOfDay : String) :
    StartResult :=
  if m.coachState ≠ CoachState.idle then
    ⟨m, false⟩
  else
    ⟨{ m with coachState := CoachState.thinking
              currentMessage := craftingMessage timeOfDay }, true⟩

/-- Continuation of `handleRoutineAction` once the `generate-routine`
invocation settles: a non-null `error` or a null `data` (whose `.message`
read throws) reaches the catch block; otherwise `data.message` is adopted
verbatim — with no emptiness check — a success toast is shown and
`triggerRoutinesRefresh()` is called. -/
def handleRoutineActionSettle (m : CoachModel) (timeOfDay : String)
    (out : InvokeOutcome) : SettleResult :=
  match out with
  | InvokeOutcome.success (some msg) =>
      ⟨{ m with coachState := CoachState.talking
                currentMessage := msg },
       [Toast.success routineSuccessToastLabel], true⟩
  | _ =>
      ⟨{ m with coachState := CoachState.talking
                currentMessage := quillMessage },
       [Toast.error (routineFailToastLabel timeOfDay)], false⟩

/-- The Lottie `onComplete` callback: when playback of the current
message finishes in the `talking` state, go back to `idle`. -/
def onComplete (m : CoachModel) : CoachModel :=
  if m.coachState = CoachState.talking then
    { m with coachState := CoachState.idle }
  else
    m

/-! ## Data store

The repository's central store (`useDataStore`) is imported by the pages
under `src/` but its own source file is not among the provided files;
the definitions below therefore model its operations from the spec
(§4.1, §5), as explicit start/settle steps over an explicit state. -/

/-- Modelled from the spec: the state of `useDataStore` relevant to
`fetchRoutinesAndHabits` single-flight, whose implementation is not in
the provided sources. `pendingCallers` are the callers waiting on the
one in-flight fetch; `fetchAllCalls` counts RemoteAPI `fetchAll` round
trips issued so far. -/
structure FetchStore where
  cache : Cache
  isLoadingRoutines : Bool
  pendingCallers : List Nat
  fetchAllCalls : Nat
  deriving DecidableEq, Repr

/-- Modelled from the spec: `fetchRoutinesAndHabits()` invoked by
`caller`. If a fetch is already outstanding the caller joins it and no
second RemoteAPI `fetchAll` is issued; otherwise the loading flag is set
and one `fetchAll` round trip starts. -/
def fetchRoutinesAndHabitsBegin (s : FetchStore) (caller : Nat) :
    FetchStore :=
  if s.isLoadingRoutines then
    { s with pendingCallers := caller :: s.pendingCallers }
  else
    { s with isLoadingRoutines := true
             pendingCallers := [caller]
             fetchAllCalls := s.fetchAllCalls + 1 }

/-- Modelled from the spec: the in-flight `fetchAll` resolves with
result `r`. The cache is replaced atomically, the loading flag cleared,
and every pending caller observes the new cache (the returned list pairs
each caller with the cache it observes). -/
def fetchRoutinesAndHabitsResolve (s : FetchStore) (r : Cache) :
    FetchStore × List (Nat × Cache) :=
  ({ s with cache := r
            isLoadingRoutines := false
            pendingCallers := [] },
   s.pendingCallers.map (fun c => (c, r)))

/-- Does log `l` concern habit `h` on day `d`? -/
def logMatches (h d : Nat) (l : HabitLog) : Bool :=
  l.habit_id == h && l.date == d

/-- The cache's log entry for `(habit, day)`, when present. -/
def findLog (logs : List HabitLog) (h d : Nat) : Option HabitLog :=
  logs.find? (logMatches h d)

/-- Write/overwrite the log entry for `(habit, day)`. -/
def setLog (logs : List HabitLog) (h d : Nat) (b : Bool) : List HabitLog :=
  ⟨h, d, b⟩ :: logs.filter (fun l => !logMatches h d l)

/-- Remove the log entry for `(habit, day)`. -/
def removeLog (logs : List HabitLog) (h d : Nat) : List HabitLog :=
  logs.filter (fun l => !logMatches h d l)

/-- Restore the log entry for `(habit, day)` to a remembered pre-toggle
value (removal when it did not previously exist). -/
def revertLog (logs : List HabitLog) (h d : Nat) (prior : Option Bool) :
    List HabitLog :=
  match prior with
  | none => removeLog logs h d
  | some b => setLog logs h d b

/-- Modelled from the spec: one outstanding `toggleHabit` network call
of `useDataStore` (implementation not in the provided sources): the
habit and day it targets, the pre-toggle value remembered for rollback,
and the sequence number used to serialize per-habit toggles. -/
structure ToggleOp where
  habit_id : Nat
  date : Nat
  prior : Option Bool
  seq : Nat
  deriving DecidableEq, Repr

/-- Modelled from the spec: the state of `useDataStore` relevant to
`toggleHabit`: the cached habit logs, a fresh-sequence counter, and, per
habit, the sequence number of the newest toggle issued on it. -/
structure ToggleStore where
  logs : List HabitLog
  nextSeq : Nat
  latestSeq : List (Nat × Nat)
  deriving DecidableEq, Repr

/-- Modelled from the spec: `toggleHabit(habitId, completed)` optimistic
phase, run before the network call resolves: the log entry for
`(habitId, today)` is immediately written/overwritten in the cache, the
pre-toggle value is remembered, and the toggle becomes the newest one on
its habit. -/
def toggleHabitBegin (s : ToggleStore) (h today : Nat) (completed : Bool) :
    ToggleStore × ToggleOp :=
  let prior := (findLog s.logs h today).map (fun l => l.completed)
  ({ logs := setLog s.logs h today completed
     nextSeq := s.nextSeq + 1
     latestSeq := (h, s.nextSeq) :: s.latestSeq.filter (fun p => p.1 != h) },
   ⟨h, today, prior, s.nextSeq⟩)

/-- Is `op` still the newest toggle issued on its habit? -/
def isLatestToggle (s : ToggleStore) (op : ToggleOp) : Bool :=
  match s.latestSeq.find? (fun p => p.1 == op.habit_id) with
  | some p => p.2 == op.seq
  | none => false

/-- Modelled from the spec: the `setHabitCompletion` call backing toggle
`op` settles with outcome `ok`. On success no further cache mutation is
needed; on failure the entry is reverted to its pre-toggle value — but a
stale response (one superseded by a newer toggle on the same habit) must
not overwrite the newer optimistic value, so the revert only applies when
`op` is still the newest toggle on its habit. -/
def toggleHabitSettle (s : ToggleStore) (op : ToggleOp) (ok : Bool) :
    ToggleStore :=
  if ok then s
  else if isLatestToggle s op then
    { s with logs := revertLog s.logs op.habit_id op.date op.prior }
  else s

/-- Modelled from the spec: the cache mutation applied by
`deleteRoutine(routineId)` of `useDataStore` (implementation not in the
provided sources) on RemoteAPI success: the routine, every habit with
that `routine_id`, and every log of one of those habits are removed in
one cascade. -/
def deleteRoutineApply (c : Cache) (routineId : Nat) : Cache :=
  { routines := c.routines.filter (fun r => !(r.id == routineId))
    habits := c.habits.filter (fun h => !(h.routine_id == routineId))
    habitLogs := c.habitLogs.filter (fun l =>
      !(c.habits.any (fun h =>
        h.id == l.habit_id && h.routine_id == routineId))) }

/-- Modelled from the spec: `deleteRoutine(routineId)` forwarded to
RemoteAPI, with `ok` the outcome of the remote call: the cascade is
applied on success and the cache is left entirely unchanged on
failure. -/
def deleteRoutine (c : Cache) (routineId : Nat) (ok : Bool) : Cache :=
  if ok then deleteRoutineApply c routineId else c

/-! ## Routines page view (from `RoutinesPage`) -/

/-- What `RoutinesPage` renders: the loading spinner, the fallback
message ("The ancient tomes could not be found. Please try refreshing
the page."), or the two routine cards. -/
inductive RoutinesView
  | loadingSpinner
  | fallbackMessage
  | content (morning evening : Routine)
  deriving DecidableEq, Repr

/-- The render logic of `RoutinesPage`: spinner while
`isLoadingRoutines`; otherwise the first morning and first evening
routine are looked up with `routines.find(...)` and, if either is
absent, the fallback message is rendered instead of the content. -/
def routinesPageView (isLoadingRoutines : Bool) (routines : List Routine) :
    RoutinesView :=
  if isLoadingRoutines then
    RoutinesView.loadingSpinner
  else
    match routines.find? (fun r => r.time_of_day == TimeOfDay.morning),
          routines.find? (fun r => r.time_of_day == TimeOfDay.evening) with
    | some m, some e => RoutinesView.content m e
    | some _, none => RoutinesView.fallbackMessage
    | none, _ => RoutinesView.fallbackMessage

/-! ## Helper lemmas about the habit-log cache -/

/-- The optimistically written log entry is the one found afterwards. -/
theorem findLog_setLog (logs : List HabitLog) (h d : Nat) (b : Bool) :
    findLog (setLog logs h d b) h d = some ⟨h, d, b⟩ := by
  simp [findLog, setLog, List.find?, logMatches]

/-- When no log entry for `(h, d)` is present, filtering such entries
out changes nothing. -/
theorem filter_eq_self_of_findLog_none (logs : List HabitLog) (h d : Nat)
    (hn : findLog logs h d = none) :
    logs.filter (fun l => !logMatches h d l) = logs := by
  rw [List.filter_eq_self]
  intro l hl
  have h2 : logMatches h d l = false := by
    have := List.find?_eq_none.mp hn l hl
    simpa using this
  simp [h2]

/-- A successful toggle response mutates nothing. -/
theorem toggleHabitSettle_ok (st : ToggleStore) (op : ToggleOp) :
    toggleHabitSettle st op true = st := rfl

/-- A response for a toggle that has been superseded by a newer toggle
on the same habit mutates nothing, whatever its outcome. -/
theorem toggleHabitSettle_stale (st : ToggleStore) (op : ToggleOp)
    (ok : Bool) (hl : isLatestToggle st op = false) :
    toggleHabitSettle st op ok = st := by
  cases ok <;> simp [toggleHabitSettle, hl]

/-! ## Theorems about the coach state machine -/

/-- Claim C5: whenever the coach state machine is not `idle`, both
`sendMessage` and `requestRoutine` are no-ops — the component state
(state, current message, input value) is unchanged and no AI invocation
is issued — so at most one AI request is ever in flight. -/
theorem coach_guard_not_idle_noop (m : CoachModel) (prompt timeOfDay : String)
    (h : m.coachState ≠ CoachState.idle) :
    handleSendMessageStart m prompt = ⟨m, false⟩ ∧
    handleRoutineActionStart m timeOfDay = ⟨m, false⟩ := by
  constructor
  · simp only [handleSendMessageStart]
    rw [if_pos (Or.inr h)]
  · simp only [handleRoutineActionStart]
    rw [if_pos h]

/-- Witness for C5 at the concrete `thinking` state and inputs. -/
theorem coach_guard_not_idle_noop_witness :
    (⟨CoachState.thinking, ponderMessage, ""⟩ : CoachModel).coachState ≠
        CoachState.idle ∧
    (handleSendMessageStart ⟨CoachState.thinking, ponderMessage, ""⟩ "hi" =
        ⟨⟨CoachState.thinking, ponderMessage, ""⟩, false⟩ ∧
      handleRoutineActionStart ⟨CoachState.thinking, ponderMessage, ""⟩
          "morning" =
        ⟨⟨CoachState.thinking, ponderMessage, ""⟩, false⟩) :=
  ⟨by decide,
   coach_guard_not_idle_noop ⟨CoachState.thinking, ponderMessage, ""⟩ "hi"
     "morning" (by decide)⟩

/-- Claim C6, counterexample: a `generate-routine` invocation that
succeeds with an empty message is NOT mapped to the apology — the empty
message is adopted verbatim and a success (not failure) notification is
emitted, contradicting the claim that both invocations fall back to the
apology on an empty successful response. -/
theorem coach_fallback_empty_routine_counterexample :
    (handleRoutineActionSettle
        ⟨CoachState.thinking, craftingMessage "morning", ""⟩ "morning"
        (InvokeOutcome.success (some ""))).model.currentMessage = "" ∧
    "" ≠ quillMessage ∧
    (handleRoutineActionSettle
        ⟨CoachState.thinking, craftingMessage "morning", ""⟩ "morning"
        (InvokeOutcome.success (some ""))).toasts =
      [Toast.success routineSuccessToastLabel] := by
  refine ⟨rfl, ?_, rfl⟩
  decide

/-- Claim C6, amended: for the `ai-coach` invocation, failure, a null
data object, or an empty response all land in `talking` with the fixed
apology and a failure notification; for the `generate-routine`
invocation only failure or a null data object do (a successful but empty
message is adopted verbatim with a success notification). -/
theorem coach_fallback_amended (m : CoachModel) (timeOfDay : String)
    (out : InvokeOutcome)
    (hbad : out = InvokeOutcome.failure ∨ out = InvokeOutcome.success none ∨
      out = InvokeOutcome.success (some "")) :
    handleSendMessageSettle m out =
      ⟨{ m with coachState := CoachState.talking
                currentMessage := sendApologyMessage },
       [Toast.error cloudyToastLabel], false⟩ ∧
    ((out = InvokeOutcome.failure ∨ out = InvokeOutcome.success none) →
      handleRoutineActionSettle m timeOfDay out =
        ⟨{ m with coachState := CoachState.talking
                  currentMessage := quillMessage },
         [Toast.error (routineFailToastLabel timeOfDay)], false⟩) := by
  rcases hbad with h | h | h <;> subst h <;>
    simp [handleSendMessageSettle, handleRoutineActionSettle]

/-- Witness for the amended C6 at a failed invocation. -/
theorem coach_fallback_amended_witness :
    (InvokeOutcome.failure = InvokeOutcome.failure ∨
      InvokeOutcome.failure = InvokeOutcome.success none ∨
      InvokeOutcome.failure = InvokeOutcome.success (some "")) ∧
    (handleSendMessageSettle ⟨CoachState.thinking, ponderMessage, ""⟩
        InvokeOutcome.failure =
      ⟨⟨CoachState.talking, sendApologyMessage, ""⟩,
       [Toast.error cloudyToastLabel], false⟩ ∧
    ((InvokeOutcome.failure = InvokeOutcome.failure ∨
        InvokeOutcome.failure = InvokeOutcome.success none) →
      handleRoutineActionSettle ⟨CoachState.thinking, ponderMessage, ""⟩
          "morning" InvokeOutcome.failure =
        ⟨⟨CoachState.talking, quillMessage, ""⟩,
         [Toast.error (routineFailToastLabel "morning")], false⟩)) :=
  ⟨Or.inl rfl,
   coach_fallback_amended ⟨CoachState.thinking, ponderMessage, ""⟩ "morning"
     InvokeOutcome.failure (Or.inl rfl)⟩

/-- Claim C7: a `generate-routine` invocation that settles successfully
with a non-empty message moves the machine from `thinking` to `talking`,
adopts the message as the current message, calls
`triggerRoutinesRefresh()`, and emits a success notification. -/
theorem coach_routine_success (m : CoachModel) (timeOfDay msg : String)
    (hthinking : m.coachState = CoachState.thinking) (hmsg : msg ≠ "") :
    handleRoutineActionSettle m timeOfDay (InvokeOutcome.success (some msg)) =
      ⟨{ m with coachState := CoachState.talking, currentMessage := msg },
       [Toast.success routineSuccessToastLabel], true⟩ := by
  simp [handleRoutineActionSettle]

/-- Witness for C7 at a concrete thinking state and message. -/
theorem coach_routine_success_witness :
    (⟨CoachState.thinking, craftingMessage "morning", ""⟩ :
        CoachModel).coachState = CoachState.thinking ∧
    ("A fine routine awaits." ≠ "") ∧
    handleRoutineActionSettle
        ⟨CoachState.thinking, craftingMessage "morning", ""⟩ "morning"
        (InvokeOutcome.success (some "A fine routine awaits.")) =
      ⟨⟨CoachState.talking, "A fine routine awaits.", ""⟩,
       [Toast.success routineSuccessToastLabel], true⟩ :=
  ⟨rfl, by decide,
   coach_routine_success ⟨CoachState.thinking, craftingMessage "morning", ""⟩
     "morning" "A fine routine awaits." rfl (by decide)⟩

/-- Claim C8: when the machine is in `talking` and the animation
collaborator signals playback completion, the machine transitions to
`idle` (nothing else in the component state changes). -/
theorem coach_talking_playback_complete (m : CoachModel)
    (h : m.coachState = CoachState.talking) :
    onComplete m = { m with coachState := CoachState.idle } := by
  simp [onComplete, h]

/-- Witness for C8 at a concrete talking state. -/
theorem coach_talking_playback_complete_witness :
    (⟨CoachState.talking, greetingMessage, ""⟩ : CoachModel).coachState =
        CoachState.talking ∧
    onComplete ⟨CoachState.talking, greetingMessage, ""⟩ =
      ⟨CoachState.idle, greetingMessage, ""⟩ :=
  ⟨rfl, coach_talking_playback_complete
    ⟨CoachState.talking, greetingMessage, ""⟩ rfl⟩

/-- Claim C10: a prompt that is empty or consists only of whitespace
makes `sendMessage` a no-op even in the `idle` state: the component
state (state, current message, input value) is unchanged and no AI
invocation is issued. -/
theorem coach_blank_prompt_noop (m : CoachModel) (prompt : String)
    (h : isBlankPrompt prompt = true) :
    handleSendMessageStart m prompt = ⟨m, false⟩ := by
  simp only [handleSendMessageStart]
  rw [if_pos (Or.inl h)]

/-- Witness for C10 at the idle state and an all-whitespace prompt. -/
theorem coach_blank_prompt_noop_witness :
    isBlankPrompt "   " = true ∧
    handleSendMessageStart ⟨CoachState.idle, greetingMessage, "   "⟩ "   " =
      ⟨⟨CoachState.idle, greetingMessage, "   "⟩, false⟩ :=
  ⟨by decide,
   coach_blank_prompt_noop ⟨CoachState.idle, greetingMessage, "   "⟩ "   "
     (by decide)⟩

/-! ## Theorems about the data store -/

/-- Claim C1: when `fetchRoutinesAndHabits()` is invoked by a second
caller while a first call is still outstanding, exactly one RemoteAPI
`fetchAll` round trip is issued, and when it resolves both callers
observe the one resulting cache (which is the store's new cache). -/
theorem fetch_single_flight (s : FetchStore) (c1 c2 : Nat) (r : Cache)
    (h : s.isLoadingRoutines = false) :
    (fetchRoutinesAndHabitsResolve
        (fetchRoutinesAndHabitsBegin (fetchRoutinesAndHabitsBegin s c1) c2)
        r).1.fetchAllCalls = s.fetchAllCalls + 1 ∧
    (fetchRoutinesAndHabitsResolve
        (fetchRoutinesAndHabitsBegin (fetchRoutinesAndHabitsBegin s c1) c2)
        r).2 = [(c2, r), (c1, r)] ∧
    (fetchRoutinesAndHabitsResolve
        (fetchRoutinesAndHabitsBegin (fetchRoutinesAndHabitsBegin s c1) c2)
        r).1.cache = r := by
  simp [fetchRoutinesAndHabitsBegin, fetchRoutinesAndHabitsResolve, h]

/-- Witness for C1 at a concrete quiescent store and two callers. -/
theorem fetch_single_flight_witness :
    (FetchStore.mk ⟨[], [], []⟩ false [] 0).isLoadingRoutines = false ∧
    ((fetchRoutinesAndHabitsResolve
        (fetchRoutinesAndHabitsBegin
          (fetchRoutinesAndHabitsBegin ⟨⟨[], [], []⟩, false, [], 0⟩ 1) 2)
        ⟨[⟨7, "Morning", TimeOfDay.morning⟩], [], []⟩).1.fetchAllCalls =
        0 + 1 ∧
    (fetchRoutinesAndHabitsResolve
        (fetchRoutinesAndHabitsBegin
          (fetchRoutinesAndHabitsBegin ⟨⟨[], [], []⟩, false, [], 0⟩ 1) 2)
        ⟨[⟨7, "Morning", TimeOfDay.morning⟩], [], []⟩).2 =
      [(2, ⟨[⟨7, "Morning", TimeOfDay.morning⟩], [], []⟩),
       (1, ⟨[⟨7, "Morning", TimeOfDay.morning⟩], [], []⟩)] ∧
    (fetchRoutinesAndHabitsResolve
        (fetchRoutinesAndHabitsBegin
          (fetchRoutinesAndHabitsBegin ⟨⟨[], [], []⟩, false, [], 0⟩ 1) 2)
        ⟨[⟨7, "Morning", TimeOfDay.morning⟩], [], []⟩).1.cache =
      ⟨[⟨7, "Morning", TimeOfDay.morning⟩], [], []⟩) :=
  ⟨rfl, fetch_single_flight ⟨⟨[], [], []⟩, false, [], 0⟩ 1 2
    ⟨[⟨7, "Morning", TimeOfDay.morning⟩], [], []⟩ rfl⟩

/-- Claim C2: for a habit with no log for today, `toggleHabit(h, true)`
immediately (before the network call resolves) writes the log
`{h, today, true}` into the cache; if the backing `setHabitCompletion`
call then fails the cache's logs revert to their pre-toggle state (the
entry is removed, as it did not previously exist); if it succeeds no
further cache mutation occurs. -/
theorem toggle_optimistic_rollback (s : ToggleStore) (h today : Nat)
    (hnone : findLog s.logs h today = none) :
    findLog (toggleHabitBegin s h today true).1.logs h today =
      some ⟨h, today, true⟩ ∧
    (toggleHabitSettle (toggleHabitBegin s h today true).1
        (toggleHabitBegin s h today true).2 false).logs = s.logs ∧
    toggleHabitSettle (toggleHabitBegin s h today true).1
        (toggleHabitBegin s h today true).2 true =
      (toggleHabitBegin s h today true).1 := by
  have hfil : s.logs.filter (fun l => !logMatches h today l) = s.logs :=
    filter_eq_self_of_findLog_none s.logs h today hnone
  have hhead : logMatches h today ⟨h, today, true⟩ = true := by
    simp [logMatches]
  refine ⟨findLog_setLog s.logs h today true, ?_,
    toggleHabitSettle_ok _ _⟩
  simp [toggleHabitBegin, toggleHabitSettle, isLatestToggle, List.find?,
    hnone, revertLog, removeLog, setLog, hhead, hfil]

/-- Witness for C2 at a concrete store with no log for habit 1 today. -/
theorem toggle_optimistic_rollback_witness :
    findLog (ToggleStore.mk [] 0 []).logs 1 0 = none ∧
    (findLog (toggleHabitBegin ⟨[], 0, []⟩ 1 0 true).1.logs 1 0 =
        some ⟨1, 0, true⟩ ∧
    (toggleHabitSettle (toggleHabitBegin ⟨[], 0, []⟩ 1 0 true).1
        (toggleHabitBegin ⟨[], 0, []⟩ 1 0 true).2 false).logs =
      (ToggleStore.mk [] 0 []).logs ∧
    toggleHabitSettle (toggleHabitBegin ⟨[], 0, []⟩ 1 0 true).1
        (toggleHabitBegin ⟨[], 0, []⟩ 1 0 true).2 true =
      (toggleHabitBegin ⟨[], 0, []⟩ 1 0 true).1) :=
  ⟨rfl, toggle_optimistic_rollback ⟨[], 0, []⟩ 1 0 rfl⟩

/-- Claim C3: when `toggleHabit(h, true)` is issued and then
`toggleHabit(h, false)` is issued before either network call resolves,
the cache's log for `(h, today)` ends at `completed = false` whatever
the order in which the two network responses arrive (the second toggle's
call succeeding, the first settling either way): the earlier, stale
response never overwrites the later optimistic value. -/
theorem toggle_stale_response_ordering (s : ToggleStore) (h today : Nat)
    (b1 : Bool) :
    findLog (toggleHabitSettle
        (toggleHabitSettle
          (toggleHabitBegin (toggleHabitBegin s h today true).1 h today
            false).1
          (toggleHabitBegin s h today true).2 b1)
        (toggleHabitBegin (toggleHabitBegin s h today true).1 h today
          false).2 true).logs h today = some ⟨h, today, false⟩ ∧
    findLog (toggleHabitSettle
        (toggleHabitSettle
          (toggleHabitBegin (toggleHabitBegin s h today true).1 h today
            false).1
          (toggleHabitBegin (toggleHabitBegin s h today true).1 h today
            false).2 true)
        (toggleHabitBegin s h today true).2 b1).logs h today =
      some ⟨h, today, false⟩ := by
  have hstale : isLatestToggle
      (toggleHabitBegin (toggleHabitBegin s h today true).1 h today false).1
      (toggleHabitBegin s h today true).2 = false := by
    simp [toggleHabitBegin, isLatestToggle, List.find?]
  have hs2 : findLog
      (toggleHabitBegin (toggleHabitBegin s h today true).1 h today
        false).1.logs h today = some ⟨h, today, false⟩ :=
    findLog_setLog (toggleHabitBegin s h today true).1.logs h today false
  constructor
  · rw [toggleHabitSettle_stale _ _ _ hstale, toggleHabitSettle_ok]
    exact hs2
  · rw [toggleHabitSettle_ok, toggleHabitSettle_stale _ _ _ hstale]
    exact hs2

/-- Claim C4: `deleteRoutine(r)` on RemoteAPI success removes from the
cache the routine, every habit whose `routine_id` is the routine's id,
and every log referencing one of those habits; on RemoteAPI failure the
cache is entirely unchanged (never a partial cascade). -/
theorem routine_cascade_delete (c : Cache) (r : Routine)
    (hr : r ∈ c.routines) :
    r ∉ (deleteRoutine c r.id true).routines ∧
    (∀ hb ∈ c.habits, hb.routine_id = r.id →
      hb ∉ (deleteRoutine c r.id true).habits) ∧
    (∀ l ∈ c.habitLogs,
      (∃ hb ∈ c.habits, hb.id = l.habit_id ∧ hb.routine_id = r.id) →
      l ∉ (deleteRoutine c r.id true).habitLogs) ∧
    deleteRoutine c r.id false = c := by
  have hd : deleteRoutine c r.id true = deleteRoutineApply c r.id := by
    simp [deleteRoutine]
  refine ⟨?_, ?_, ?_, by simp [deleteRoutine]⟩
  · rw [hd]
    intro hmem
    have := (List.mem_filter.mp hmem).2
    simp [deleteRoutineApply] at this
  · rw [hd]
    intro hb hbmem heq hmem
    have := (List.mem_filter.mp hmem).2
    simp [deleteRoutineApply, heq] at this
  · rw [hd]
    rintro l hlmem ⟨hb, hbmem, hid, hrid⟩ hmem
    have := (List.mem_filter.mp hmem).2
    simp [deleteRoutineApply] at this
    exact this hb hbmem hid hrid

/-- Witness for C4 at a concrete cache: one morning routine holding two
habits, each with one log. -/
theorem routine_cascade_delete_witness :
    (⟨1, "Morning", TimeOfDay.morning⟩ : Routine) ∈
      (Cache.mk [⟨1, "Morning", TimeOfDay.morning⟩]
        [⟨10, "h1", 1⟩, ⟨11, "h2", 1⟩]
        [⟨10, 0, true⟩, ⟨11, 0, false⟩]).routines ∧
    ((⟨1, "Morning", TimeOfDay.morning⟩ : Routine) ∉
      (deleteRoutine
        ⟨[⟨1, "Morning", TimeOfDay.morning⟩], [⟨10, "h1", 1⟩, ⟨11, "h2", 1⟩],
          [⟨10, 0, true⟩, ⟨11, 0, false⟩]⟩
        (⟨1, "Morning", TimeOfDay.morning⟩ : Routine).id true).routines ∧
    (∀ hb ∈ (Cache.mk [⟨1, "Morning", TimeOfDay.morning⟩]
        [⟨10, "h1", 1⟩, ⟨11, "h2", 1⟩]
        [⟨10, 0, true⟩, ⟨11, 0, false⟩]).habits,
      hb.routine_id = (⟨1, "Morning", TimeOfDay.morning⟩ : Routine).id →
      hb ∉ (deleteRoutine
        ⟨[⟨1, "Morning", TimeOfDay.morning⟩], [⟨10, "h1", 1⟩, ⟨11, "h2", 1⟩],
          [⟨10, 0, true⟩, ⟨11, 0, false⟩]⟩
        (⟨1, "Morning", TimeOfDay.morning⟩ : Routine).id true).habits) ∧
    (∀ l ∈ (Cache.mk [⟨1, "Morning", TimeOfDay.morning⟩]
        [⟨10, "h1", 1⟩, ⟨11, "h2", 1⟩]
        [⟨10, 0, true⟩, ⟨11, 0, false⟩]).habitLogs,
      (∃ hb ∈ (Cache.mk [⟨1, "Morning", TimeOfDay.morning⟩]
          [⟨10, "h1", 1⟩, ⟨11, "h2", 1⟩]
          [⟨10, 0, true⟩, ⟨11, 0, false⟩]).habits,
        hb.id = l.habit_id ∧
        hb.routine_id = (⟨1, "Morning", TimeOfDay.morning⟩ : Routine).id) →
      l ∉ (deleteRoutine
        ⟨[⟨1, "Morning", TimeOfDay.morning⟩], [⟨10, "h1", 1⟩, ⟨11, "h2", 1⟩],
          [⟨10, 0, true⟩, ⟨11, 0, false⟩]⟩
        (⟨1, "Morning", TimeOfDay.morning⟩ : Routine).id true).habitLogs) ∧
    deleteRoutine
        ⟨[⟨1, "Morning", TimeOfDay.morning⟩], [⟨10, "h1", 1⟩, ⟨11, "h2", 1⟩],
          [⟨10, 0, true⟩, ⟨11, 0, false⟩]⟩
        (⟨1, "Morning", TimeOfDay.morning⟩ : Routine).id false =
      ⟨[⟨1, "Morning", TimeOfDay.morning⟩], [⟨10, "h1", 1⟩, ⟨11, "h2", 1⟩],
        [⟨10, 0, true⟩, ⟨11, 0, false⟩]⟩) :=
  ⟨by decide,
   routine_cascade_delete
     ⟨[⟨1, "Morning", TimeOfDay.morning⟩], [⟨10, "h1", 1⟩, ⟨11, "h2", 1⟩],
       [⟨10, 0, true⟩, ⟨11, 0, false⟩]⟩
     ⟨1, "Morning", TimeOfDay.morning⟩ (by decide)⟩

/-! ## Theorems about the routines page -/

/-- Claim C9: after a successful fetch, when the loaded routines lack a
morning routine or an evening routine, `RoutinesPage` renders the
blocking but non-fatal fallback message (a total rendering outcome — no
exception path exists in the model), from which a refetch can recover. -/
theorem missing_routine_fallback (routines : List Routine)
    (hmiss :
      routines.find? (fun r => r.time_of_day == TimeOfDay.morning) = none ∨
      routines.find? (fun r => r.time_of_day == TimeOfDay.evening) = none) :
    routinesPageView false routines = RoutinesView.fallbackMessage := by
  rcases hmiss with hm | he
  · simp [routinesPageView, hm]
  · rcases hx : routines.find? (fun r => r.time_of_day == TimeOfDay.morning)
      with _ | m <;> simp [routinesPageView, he, hx]

/-- Witness for C9 at the empty routine list. -/
theorem missing_routine_fallback_witness :
    (List.find? (fun r => r.time_of_day == TimeOfDay.morning)
        ([] : List Routine) = none ∨
      List.find? (fun r => r.time_of_day == TimeOfDay.evening)
        ([] : List Routine) = none) ∧
    routinesPageView false [] = RoutinesView.fallbackMessage :=
  ⟨Or.inl rfl, missing_routine_fallback [] (Or.inl rfl)⟩

end FocusFlow
